import Mathlib

/-!
Verification development for the `miller` introspection library.

The Python sources are shallowly embedded: Python functions become Lean
functions, a raised exception becomes `Except.error`, and a Python function
that can return `None` returns an `Option` inside `Except`.  Only the error
kind (`TypeError` vs `AttributeError`) is modelled; message strings are
elided.  The embedding covers `src/miller` (configuration.py, result.py,
base.py, attributes.py, modules.py, containers.py, identity.py) and the
second source tree `src/src/miller` (base.py, attributes.py, disks.py).
-/

set_option linter.unusedVariables false

/-- Python exception kinds raised by the embedded code.  Message text is not
modelled; the constructor records which exception class is raised. -/
inductive PyErr where
  | typeError : PyErr
  | attributeError : PyErr
deriving DecidableEq, Repr

/-- Python truthiness of an optional boolean: `None` is falsy, a bool is
itself.  Used wherever the source tests `raise_error`/`match_all` values that
may still be `None`. -/
def truthy : Option Bool → Bool
  | none => false
  | some b => b

/-- A class-body member as it sits in a class `__dict__`: a plain data value,
a plain function (an instance method when looked up on an instance), a
`classmethod` descriptor, or a `property` descriptor. -/
inductive Att where
  | plain : Att
  | func : Att
  | classMeth : Att
  | prop : Att
deriving DecidableEq, Repr

/-- A Python class: its name and its `__dict__` (no inheritance beyond
`object` is modelled; the MRO of a class is the class itself). -/
structure PyClass where
  cname : String
  cdict : List (String × Att)
deriving DecidableEq, Repr

/-- A Python instance: its class and the names in its instance `__dict__`
(instance attributes are always plain data values). -/
structure PyInstance where
  icls : PyClass
  idict : List String
deriving DecidableEq, Repr

/-- A target of introspection: a class or an instance. -/
inductive PyTarget where
  | cls : PyClass → PyTarget
  | inst : PyInstance → PyTarget
deriving DecidableEq, Repr

/-- `inspect.isclass`. -/
def inspect_isclass : PyTarget → Bool
  | .cls _ => true
  | .inst _ => false

/-- `item.__class__` of an instance. -/
def dunder_class : PyInstance → PyClass
  | o => o.icls

/-- The idiom `item if inspect.isclass(item) else item.__class__` used
throughout attributes.py. -/
def toClass (item : PyTarget) : PyTarget :=
  match item with
  | .cls c => .cls c
  | .inst o => .cls (dunder_class o)

/-- Whether a class (including, in Python, its bases: here only itself) has
an attribute. -/
def classHasattr (c : PyClass) (a : String) : Bool :=
  (c.cdict.lookup a).isSome

/-- Builtin `hasattr`. -/
def pyHasattr : PyTarget → String → Bool
  | .cls c, a => classHasattr c a
  | .inst o, a => o.idict.contains a || classHasattr o.icls a

/-- The value produced by attribute lookup, as far as the predicates
distinguish it: a plain value, a plain function object, a property object, a
method bound to an instance, or a method bound to a class. -/
inductive AttrVal where
  | plainVal : AttrVal
  | funcObj : AttrVal
  | propObj : AttrVal
  | boundToInst : AttrVal
  | boundToCls : PyClass → String → AttrVal
deriving DecidableEq, Repr

/-- Builtin `getattr`, raising `AttributeError` when the name does not
resolve.  On a class, a function stays a plain function, a classmethod binds
to the class, and a property is the property object itself.  On an instance,
a property getter runs (yielding a plain value), a function binds to the
instance, a classmethod binds to the class, and instance-dict entries are
plain values. -/
def pyGetattr : PyTarget → String → Except PyErr AttrVal
  | .cls c, a =>
    match c.cdict.lookup a with
    | some .plain => .ok .plainVal
    | some .func => .ok .funcObj
    | some .classMeth => .ok (.boundToCls c a)
    | some .prop => .ok .propObj
    | none => .error .attributeError
  | .inst o, a =>
    match o.icls.cdict.lookup a with
    | some .prop => .ok .plainVal
    | some .func => .ok .boundToInst
    | some .classMeth => .ok (.boundToCls o.icls a)
    | some .plain => .ok .plainVal
    | none => if o.idict.contains a then .ok .plainVal else .error .attributeError

/-- `inspect.ismethod`: true exactly for bound methods. -/
def inspect_ismethod : AttrVal → Bool
  | .boundToInst => true
  | .boundToCls _ _ => true
  | _ => false

/-- `isinstance(x, property)`. -/
def isinstance_property : AttrVal → Bool
  | .propObj => true
  | _ => false

/-- The mutable module-level globals of configuration.py that predicates read
at call time.  Passing the record explicitly models "read the global at call
time". -/
structure MillerConfig where
  RAISE_ERRORS : Bool
  MATCH_ALL : Bool
  RECURSIVE : Bool
deriving DecidableEq, Repr

/-- The values configuration.py assigns at import time
(`RAISE_ERRORS = True`, `MATCH_ALL = True`, `RECURSIVE = False`). -/
def importConfig : MillerConfig :=
  { RAISE_ERRORS := true, MATCH_ALL := true, RECURSIVE := false }

/-- configuration.DEFAULT_HAS (`False`). -/
def DEFAULT_HAS : Bool := false

/-- configuration.DEFAULT_IS (`False`). -/
def DEFAULT_IS : Bool := false

/-- configuration.DEFAULT_LIST (`[]`). -/
def DEFAULT_LIST {α : Type} : List α := []

/-- configuration.DEFAULT_MAP (`{}`), a dict modelled as an association
list. -/
def DEFAULT_MAP {α : Type} : List (String × α) := []

/-- configuration.DEFAULT_NAME (`[]`). -/
def DEFAULT_NAME : List String := []

/-- result.report_has (src/miller/result.py:39).  `value` is the computed
boolean; `raise_error` and `match_all` may still be `None` and are tested for
truthiness.  `item`/`elements` only feed the (elided) error messages.  The
result is `Option Bool` because a Python function could return `None`; every
branch of the source returns explicitly, so `none` never occurs. -/
def report_has (value : Bool) (raise_error : Option Bool)
    (match_all : Option Bool) (item : PyTarget) (elements : List String) :
    Except PyErr (Option Bool) :=
  if !value && truthy raise_error && truthy match_all then
    .error .attributeError
  else if !value && truthy raise_error then
    .error .attributeError
  else if !value then
    .ok (some DEFAULT_HAS)
  else
    .ok (some value)

/-- result.report_is (src/miller/result.py:69).  `value` is whatever the
checker returned (possibly `None`). -/
def report_is (value : Option Bool) (raise_error : Option Bool)
    (item : PyTarget) (kind : Option String) : Except PyErr (Option Bool) :=
  if !truthy value && truthy raise_error && kind.isNone then
    .error .typeError
  else if !truthy value && truthy raise_error then
    .error .typeError
  else if !truthy value then
    .ok (some DEFAULT_IS)
  else
    .ok value

/-- result.report_list (src/miller/result.py:92): an empty list is falsy. -/
def report_list {α : Type} (value : List α) (raise_error : Option Bool)
    (match_all : Option Bool) : Except PyErr (Option (List α)) :=
  if value.isEmpty && truthy raise_error && truthy match_all then
    .error .attributeError
  else if value.isEmpty && truthy raise_error then
    .error .attributeError
  else if value.isEmpty then
    .ok (some DEFAULT_LIST)
  else
    .ok (some value)

/-- result.report_map (src/miller/result.py:121): an empty dict is falsy. -/
def report_map {α : Type} (value : List (String × α)) (raise_error : Option Bool)
    (match_all : Option Bool) : Except PyErr (Option (List (String × α))) :=
  if value.isEmpty && truthy raise_error && truthy match_all then
    .error .attributeError
  else if value.isEmpty && truthy raise_error then
    .error .attributeError
  else if value.isEmpty then
    .ok (some DEFAULT_MAP)
  else
    .ok (some value)

/-- result.report_name (src/miller/result.py:150). -/
def report_name (value : List String) (raise_error : Option Bool)
    (match_all : Option Bool) : Except PyErr (Option (List String)) :=
  if value.isEmpty && truthy raise_error && truthy match_all then
    .error .attributeError
  else if value.isEmpty && truthy raise_error then
    .error .attributeError
  else if value.isEmpty then
    .ok (some DEFAULT_NAME)
  else
    .ok (some value)

/-- The Python conditional expression `X if None else Y` exactly as it
appears in base.py (`configuration.RAISE_ERRORS if None else raise_error`):
the condition is the constant `None`, which is falsy, so the expression
always evaluates to `Y` and the global default is never consulted. -/
def ifNoneCond {α : Type} (x y : α) : α :=
  if truthy none then x else y

/-- `all(check(a) for a in elements)`: short-circuits on the first falsy
result; an exception raised while producing an element propagates. -/
def pyAll (check : String → Except PyErr (Option Bool)) :
    List String → Except PyErr Bool
  | [] => .ok true
  | a :: rest => do
    let v ← check a
    if truthy v then pyAll check rest else .ok false

/-- `any(check(a) for a in elements)`: short-circuits on the first truthy
result. -/
def pyAny (check : String → Except PyErr (Option Bool)) :
    List String → Except PyErr Bool
  | [] => .ok false
  | a :: rest => do
    let v ← check a
    if truthy v then .ok true else pyAny check rest

/-- base.has_elements (src/miller/base.py:39).  A checker is a function of
the target, a name and a `raise_error` override.  Note the two `X if None
else Y` lines: the explicit `raise_error`/`match_all` arguments are kept even
when they are `None`, so the globals are never read and a `None` value flows
on as falsy. -/
def has_elements (cfg : MillerConfig)
    (checker : PyTarget → String → Option Bool → Except PyErr (Option Bool))
    (raise_error : Option Bool) (match_all : Option Bool)
    (item : PyTarget) (elements : List String) : Except PyErr (Option Bool) := do
  let raise_error := ifNoneCond (some cfg.RAISE_ERRORS) raise_error
  let match_all := ifNoneCond (some cfg.MATCH_ALL) match_all
  let value ←
    if truthy match_all then
      pyAll (fun a => checker item a (some false)) elements
    else
      pyAny (fun a => checker item a (some false)) elements
  report_has value raise_error match_all item elements

/-- base.is_kind (src/miller/base.py:79).  The checker is called as
`checker(item)` when `kind` is `None` and as `checker(item, kind)` otherwise;
a checker therefore receives an optional second argument. -/
def is_kind (cfg : MillerConfig)
    (checker : PyTarget → Option String → Except PyErr (Option Bool))
    (raise_error : Option Bool) (item : PyTarget) (kind : Option String) :
    Except PyErr (Option Bool) := do
  let raise_error := ifNoneCond (some cfg.RAISE_ERRORS) raise_error
  let value ← if kind.isNone then checker item none else checker item kind
  report_is value raise_error item kind

/-- base.is_kind_class (src/src/miller/base.py:110): same body as is_kind in
the second source tree. -/
def is_kind_class (cfg : MillerConfig)
    (checker : PyTarget → Option String → Except PyErr (Option Bool))
    (raise_error : Option Bool) (item : PyTarget) (kind : Option String) :
    Except PyErr (Option Bool) := do
  let raise_error := ifNoneCond (some cfg.RAISE_ERRORS) raise_error
  let value ← if kind.isNone then checker item none else checker item kind
  report_is value raise_error item kind

/-- The builtin `isinstance` used as a checker (is_attribute passes it to
base.is_kind with the attribute NAME as `kind`).  `isinstance(item)` with one
argument raises TypeError (missing argument); `isinstance(item, s)` with a
string second argument raises TypeError (arg 2 must be a type or tuple of
types). -/
def isinstance_checker : PyTarget → Option String → Except PyErr (Option Bool)
  | _, none => .error .typeError
  | _, some _ => .error .typeError

/-- The builtin `hasattr` used as a checker (the second source tree's
is_attribute passes it to base.is_kind_class).  With one argument it raises
TypeError; with a name it returns the real membership bool. -/
def hasattr_checker : PyTarget → Option String → Except PyErr (Option Bool)
  | _, none => .error .typeError
  | item, some a => .ok (some (pyHasattr item a))

/-- attributes.is_attribute (src/miller/attributes.py:217): delegates to
base.is_kind with `checker = isinstance` and `kind = attribute` (the string
name), so the isinstance call raises TypeError for every input. -/
def is_attribute (cfg : MillerConfig) (item : PyTarget) (attr : String)
    (raise_error : Option Bool) : Except PyErr (Option Bool) :=
  is_kind cfg isinstance_checker raise_error item (some attr)

/-- is_attribute of the second source tree (src/src/miller/attributes.py:478):
delegates to base.is_kind_class with `checker = hasattr`. -/
def is_attribute2 (cfg : MillerConfig) (item : PyTarget) (attr : String)
    (raise_error : Option Bool) : Except PyErr (Option Bool) :=
  is_kind_class cfg hasattr_checker raise_error item (some attr)

/-- attributes.is_method (src/miller/attributes.py:276).  The call
`base.is_kind(checker=inspect.ismethod, raise_error=raise_error,
item=getattr(item, attribute))` omits the required positional parameter
`kind`, so Python first evaluates `getattr(item, attribute)` (which may raise
AttributeError) and then raises TypeError for the missing argument; the
function can never return. -/
def is_method (cfg : MillerConfig) (item : PyTarget) (attr : String)
    (raise_error : Option Bool) : Except PyErr (Option Bool) := do
  let _ ← pyGetattr item attr
  .error .typeError

/-- Helper for `isinstance(getattr(item, attribute), property)` evaluated
only under a `hasattr` guard. -/
def getattrIsProperty (item : PyTarget) (attr : String) : Bool :=
  match pyGetattr item attr with
  | .ok v => isinstance_property v
  | .error _ => false

/-- attributes.is_property (src/miller/attributes.py:305).  This one resolves
`raise_error is None` correctly against the global. -/
def is_property (cfg : MillerConfig) (item : PyTarget) (attr : String)
    (raise_error : Option Bool) : Except PyErr (Option Bool) :=
  let raise_error := if raise_error.isNone then some cfg.RAISE_ERRORS else raise_error
  let item := toClass item
  if !pyHasattr item attr && truthy raise_error then
    .error .attributeError
  else
    .ok (some (pyHasattr item attr && getattrIsProperty item attr))

/-- attributes.is_variable (src/miller/attributes.py:339): `hasattr and not
is_method and not is_property`, with Python short-circuiting. -/
def is_variable (cfg : MillerConfig) (item : PyTarget) (attr : String)
    (raise_error : Option Bool) : Except PyErr (Option Bool) := do
  let raise_error := if raise_error.isNone then some cfg.RAISE_ERRORS else raise_error
  if !pyHasattr item attr && truthy raise_error then
    .error .attributeError
  else if !pyHasattr item attr then
    .ok (some false)
  else do
    let m ← is_method cfg item attr (some false)
    if truthy m then .ok (some false)
    else do
      let p ← is_property cfg item attr (some false)
      .ok (some (!truthy p))

/-- attributes.is_class_attribute (src/miller/attributes.py:373). -/
def is_class_attribute (cfg : MillerConfig) (item : PyTarget) (attr : String)
    (raise_error : Option Bool) : Except PyErr (Option Bool) :=
  let raise_error := if raise_error.isNone then some cfg.RAISE_ERRORS else raise_error
  let item := toClass item
  if !pyHasattr item attr && truthy raise_error then
    .error .attributeError
  else
    .ok (some (pyHasattr item attr))

/-- attributes.is_class_method (src/miller/attributes.py:405): after the
hasattr guard it evaluates `is_method(item, attribute)` in the elif
condition; on success it inspects `__self__` and walks the MRO for a
classmethod descriptor, otherwise it falls through to `return False`. -/
def is_class_method (cfg : MillerConfig) (item : PyTarget) (attr : String)
    (raise_error : Option Bool) : Except PyErr (Option Bool) := do
  let raise_error := if raise_error.isNone then some cfg.RAISE_ERRORS else raise_error
  let item := toClass item
  if !pyHasattr item attr && truthy raise_error then
    .error .attributeError
  else do
    let m ← is_method cfg item attr none
    if truthy m then do
      let method ← pyGetattr item attr
      match method with
      | .boundToCls c mname =>
        match c.cdict.lookup mname with
        | some d => .ok (some (d == Att.classMeth))
        | none => .ok (some false)
      | _ => .ok (some false)
    else
      .ok (some false)

/-- attributes.is_class_variable (src/miller/attributes.py:449). -/
def is_class_variable (cfg : MillerConfig) (item : PyTarget) (attr : String)
    (raise_error : Option Bool) : Except PyErr (Option Bool) := do
  let raise_error := if raise_error.isNone then some cfg.RAISE_ERRORS else raise_error
  let owner := toClass item
  if !pyHasattr item attr && truthy raise_error then
    .error .attributeError
  else if !pyHasattr owner attr then
    .ok (some false)
  else do
    let m ← is_method cfg item attr (some false)
    if truthy m then .ok (some false)
    else do
      let p ← is_property cfg owner attr (some false)
      .ok (some (!truthy p))

/-- attributes.is_instance_attribute (src/miller/attributes.py:484). -/
def is_instance_attribute (cfg : MillerConfig) (item : PyTarget) (attr : String)
    (raise_error : Option Bool) : Except PyErr (Option Bool) := do
  let raise_error := if raise_error.isNone then some cfg.RAISE_ERRORS else raise_error
  let owner := toClass item
  if !pyHasattr item attr && truthy raise_error then
    .error .attributeError
  else if !pyHasattr item attr then
    .ok (some false)
  else do
    let ca ← is_class_attribute cfg owner attr (some false)
    .ok (some (!truthy ca))

/-- attributes.is_instance_method (src/miller/attributes.py:517). -/
def is_instance_method (cfg : MillerConfig) (item : PyTarget) (attr : String)
    (raise_error : Option Bool) : Except PyErr (Option Bool) := do
  let raise_error := if raise_error.isNone then some cfg.RAISE_ERRORS else raise_error
  if !pyHasattr item attr && truthy raise_error then
    .error .attributeError
  else if !pyHasattr item attr then
    .ok (some false)
  else do
    let m ← is_method cfg item attr (some false)
    if !truthy m then .ok (some false)
    else do
      let cm ← is_class_method cfg item attr (some false)
      .ok (some (!truthy cm))

/-- attributes.is_instance_variable (src/miller/attributes.py:550). -/
def is_instance_variable (cfg : MillerConfig) (item : PyTarget) (attr : String)
    (raise_error : Option Bool) : Except PyErr (Option Bool) := do
  let raise_error := if raise_error.isNone then some cfg.RAISE_ERRORS else raise_error
  let owner := toClass item
  if !pyHasattr item attr && truthy raise_error then
    .error .attributeError
  else if !pyHasattr item attr then
    .ok (some false)
  else do
    let ca ← is_class_attribute cfg owner attr (some false)
    if truthy ca then .ok (some false)
    else do
      let m ← is_method cfg item attr (some false)
      if truthy m then .ok (some false)
      else do
        let p ← is_property cfg item attr (some false)
        .ok (some (!truthy p))

/-- attributes.has_attributes (src/miller/attributes.py:51). -/
def has_attributes (cfg : MillerConfig) (item : PyTarget)
    (attributes : List String) (raise_error : Option Bool)
    (match_all : Option Bool) : Except PyErr (Option Bool) :=
  has_elements cfg (is_attribute cfg) raise_error match_all item attributes

/-- attributes.has_methods (src/miller/attributes.py:124). -/
def has_methods (cfg : MillerConfig) (item : PyTarget)
    (methods : List String) (raise_error : Option Bool)
    (match_all : Option Bool) : Except PyErr (Option Bool) :=
  has_elements cfg (is_method cfg) raise_error match_all item methods

/-- attributes.has_properties (src/miller/attributes.py:153). -/
def has_properties (cfg : MillerConfig) (item : PyTarget)
    (properties : List String) (raise_error : Option Bool)
    (match_all : Option Bool) : Except PyErr (Option Bool) :=
  has_elements cfg (is_property cfg) raise_error match_all item properties

/-- A top-level member of a module, as far as modules.py inspects it: its
recorded `__module__` attribute (absent for values such as ints or nested
modules), and whether `inspect.isclass` / `inspect.isfunction` hold of it. -/
structure Member where
  mmodule : Option String
  misClass : Bool
  misFunction : Bool
deriving DecidableEq, Repr

/-- A loaded module: its `__name__` and its `inspect.getmembers` listing
(name-sorted pairs of member name and member). -/
structure PyModule where
  modName : String
  members : List (String × Member)
deriving DecidableEq, Repr

/-- Whether a name begins with an underscore, i.e. is private by
convention. -/
def isPrivateName (s : String) : Bool :=
  s.toList.head? == some '_'

/-- camina.drop_privates as the repository uses it: drop entries whose name
begins with an underscore (external library, modelled from its use and the
surrounding docstrings). -/
def drop_privates (items : List (String × Member)) : List (String × Member) :=
  items.filter (fun m => !isPrivateName m.1)

/-- The comprehension filter `m[1].__module__ == item.__name__` of
modules._get_object_mapping: accessing `__module__` raises AttributeError
for members that lack it. -/
def filterByModule (pairs : List (String × Member)) (nm : String) :
    Except PyErr (List (String × Member)) :=
  match pairs with
  | [] => .ok []
  | m :: rest =>
    match m.2.mmodule with
    | none => .error .attributeError
    | some s => do
      let tail ← filterByModule rest nm
      .ok (if s == nm then m :: tail else tail)

/-- modules._get_object_mapping (src/miller/modules.py:351): with a predicate
it pre-filters via inspect.getmembers(item, predicate), then keeps members
whose `__module__` equals the module's `__name__`, then drops private names
unless asked to keep them. -/
def _get_object_mapping (item : PyModule) (predicate : Option (Member → Bool))
    (include_private : Bool) : Except PyErr (List (String × Member)) := do
  let pairs :=
    match predicate with
    | none => item.members
    | some p => item.members.filter (fun m => p m.2)
  let objects ← filterByModule pairs item.modName
  let objects := if include_private then objects else drop_privates objects
  .ok objects

/-- modules.map_objects (src/miller/modules.py:235): predicate `None`, i.e.
every member is considered, classes and functions included. -/
def map_objects (item : PyModule) (include_private : Bool) :
    Except PyErr (List (String × Member)) :=
  _get_object_mapping item none include_private

/-- modules.map_classes (src/miller/modules.py:195): predicate
inspect.isclass. -/
def map_classes (item : PyModule) (include_private : Bool) :
    Except PyErr (List (String × Member)) :=
  _get_object_mapping item (some (fun m => m.misClass)) include_private

/-- modules.map_functions (src/miller/modules.py:215): predicate
inspect.isfunction. -/
def map_functions (item : PyModule) (include_private : Bool) :
    Except PyErr (List (String × Member)) :=
  _get_object_mapping item (some (fun m => m.misFunction)) include_private

/-- modules.name_objects (src/miller/modules.py:289):
`list(map_objects(...).keys())`. -/
def name_objects (item : PyModule) (include_private : Bool) :
    Except PyErr (List String) := do
  let m ← map_objects item include_private
  .ok (m.map Prod.fst)

/-- modules.name_classes (src/miller/modules.py:255). -/
def name_classes (item : PyModule) (include_private : Bool) :
    Except PyErr (List String) := do
  let m ← map_classes item include_private
  .ok (m.map Prod.fst)

/-- The runtime type of a contained element, as containers.py distinguishes
it via `type(thing)` and `isinstance`. -/
inductive PyType where
  | intT : PyType
  | strT : PyType
  | boolT : PyType
  | floatT : PyType
deriving DecidableEq, Repr

/-- The `contents` argument of has_contents: a single type or a tuple of
types. -/
inductive ExpectedTypes where
  | single : PyType → ExpectedTypes
  | tup : List PyType → ExpectedTypes
deriving DecidableEq, Repr

/-- `isinstance(element, contents)` for an element of type `e`: a tuple of
types means membership in the tuple. -/
def isinstanceOf (e : PyType) (c : ExpectedTypes) : Bool :=
  match c with
  | .single t => e == t
  | .tup ts => ts.contains e

/-- containers.has_contents_serial (src/miller/containers.py:154):
`all(isinstance(i, contents) for i in item)`. -/
def has_contents_serial (item : List PyType) (contents : ExpectedTypes) :
    Except PyErr Bool :=
  .ok (item.all (fun i => isinstanceOf i contents))

/-- containers.has_contents_parallel (src/miller/containers.py:138):
`all(isinstance(item[i], contents[i]) for i in enumerate(item))`.
`enumerate` yields `(index, element)` pairs, so `item[i]` indexes the tuple
with a pair and raises TypeError on the first iteration; only the empty
tuple (empty generator) yields True. -/
def has_contents_parallel (item : List PyType) (contents : ExpectedTypes) :
    Except PyErr Bool :=
  match item with
  | [] => .ok true
  | _ :: _ => .error .typeError

/-- containers.has_contents_tuple (src/miller/containers.py:117): a
same-length tuple of expected types selects the parallel technique,
anything else the serial one (`len(contents)` is only evaluated after
`isinstance(contents, tuple)` passes). -/
def has_contents_tuple (item : List PyType) (contents : ExpectedTypes) :
    Except PyErr Bool :=
  match contents with
  | .tup ts =>
    if item.length == ts.length then has_contents_parallel item contents
    else has_contents_serial item contents
  | .single _ => has_contents_serial item contents

/-- containers.has_contents_list (src/miller/containers.py:83): lists always
use the serial technique. -/
def has_contents_list (item : List PyType) (contents : ExpectedTypes) :
    Except PyErr Bool :=
  has_contents_serial item contents

/-- `isinstance(item, Sequence)` for a value that is a Lean list: always
true. -/
def pyIsinstanceSequence (item : List PyType) : Bool := true

/-- `isinstance(item, list)` for a value that is a Lean list: always true. -/
def pyIsinstanceList (item : List PyType) : Bool := true

/-- containers.list_types_sequence (src/miller/containers.py:332): collect
`type(thing)` for each element, appending a type only on first sight;
returns `None` outside the (always-taken) isinstance branch. -/
def list_types_sequence (item : List PyType) :
    Except PyErr (Option (List PyType)) :=
  if pyIsinstanceSequence item then
    .ok (some (item.foldl
      (fun all_types kind =>
        if all_types.contains kind then all_types else all_types ++ [kind])
      []))
  else
    .ok none

/-- containers.list_types_list (src/miller/containers.py:313): inside the
`isinstance(item, list)` branch the body (copied from the dict version)
evaluates `item.keys()`; a list has no attribute `keys`, so AttributeError
is raised for every list. -/
def list_types_list (item : List PyType) :
    Except PyErr (Option (List PyType)) :=
  if pyIsinstanceList item then
    .error .attributeError
  else
    .ok none

/-- Whether a filesystem entry is a file or a directory. -/
inductive PathKind where
  | file : PathKind
  | folder : PathKind
deriving DecidableEq, Repr

/-- A directory entry: its name and whether it is a file or a folder.  All
modelled entries exist on disk. -/
structure Entry where
  ename : String
  ekind : PathKind
deriving DecidableEq, Repr

/-- A directory under inspection: its immediate children (what `glob`
scans) and all its descendants (what `rglob` scans). -/
structure Folder where
  direct : List Entry
  descendants : List Entry
deriving DecidableEq, Repr

/-- Shell-style pattern matching over characters as `pathlib` glob applies
it to a single name: `*` matches any (possibly empty) run of characters,
every other pattern character matches itself. -/
def fnmatch : List Char → List Char → Bool
  | [], s => s.isEmpty
  | p :: ps, s =>
    if p = '*' then
      (s.tails).any (fun t => fnmatch ps t)
    else
      match s with
      | [] => false
      | c :: s2 => (p == c) && fnmatch ps s2

/-- Pattern matching on strings. -/
def fnmatchStr (p s : String) : Bool :=
  fnmatch p.toList s.toList

/-- identity.is_file (src/miller/identity.py:108): exists and is a file. -/
def is_file (p : Entry) : Bool :=
  p.ekind == PathKind.file

/-- identity.is_folder (src/miller/identity.py:121): exists and is a
directory. -/
def is_folder (p : Entry) : Bool :=
  p.ekind == PathKind.folder

/-- identity.is_module (src/miller/identity.py:195): an existing file whose
suffix is in configuration.MODULE_EXTENSIONS. -/
def is_module (p : Entry) : Bool :=
  is_file p && (p.ename.endsWith ".py" || p.ename.endsWith ".pyc")

/-- disks.list_paths (src/src/miller/disks.py:205): resolves `recursive`
against the global, pathlibifies the item, and globs with the pattern
`f'*.{suffix}'` — note the literal dot: the default suffix `'*'` yields the
pattern `'*.*'`, not `'*'`. -/
def list_paths (cfg : MillerConfig) (item : Folder) (recursive : Option Bool)
    (suffix : String) : List Entry :=
  let recursive := match recursive with | none => cfg.RECURSIVE | some b => b
  if recursive then
    item.descendants.filter (fun p => fnmatchStr ("*." ++ suffix) p.ename)
  else
    item.direct.filter (fun p => fnmatchStr ("*." ++ suffix) p.ename)

/-- disks.list_folders (src/src/miller/disks.py:159): list_paths with the
default suffix, filtered by identity.is_folder. -/
def list_folders (cfg : MillerConfig) (item : Folder)
    (recursive : Option Bool) : List Entry :=
  let recursive := match recursive with | none => cfg.RECURSIVE | some b => b
  (list_paths cfg item (some recursive) "*").filter (fun p => is_folder p)

/-- disks.list_files (src/src/miller/disks.py:137). -/
def list_files (cfg : MillerConfig) (item : Folder)
    (recursive : Option Bool) (suffix : String) : List Entry :=
  let recursive := match recursive with | none => cfg.RECURSIVE | some b => b
  (list_paths cfg item (some recursive) suffix).filter (fun p => is_file p)

/-- disks.has_paths (src/src/miller/disks.py:116).  After list_paths, the
comprehension `[camina.pahlibify(p) for p in elements]` looks up the
attribute `pahlibify` on the camina module — the library function is
`pathlibify`, so a non-empty `elements` raises AttributeError on the first
element.  With an empty `elements` the comprehension succeeds and the
return expression `all(elements in paths)` applies `all()` to the boolean
of a membership test, raising TypeError (a bool is not iterable). -/
def has_paths (cfg : MillerConfig) (item : Folder) (elements : List String)
    (recursive : Option Bool) : Except PyErr (Option Bool) := do
  let paths := list_paths cfg item recursive "*"
  let elements2 ← match elements with
    | [] => Except.ok ([] : List String)
    | _ :: _ => (Except.error PyErr.attributeError : Except PyErr (List String))
  Except.error PyErr.typeError

/-- disks.has_files (src/src/miller/disks.py:53):
`has_paths(...) and all(identity.is_file(path) for path in item)`.  The
right operand, were it reached, iterates over `item` — a single Path — and
would raise TypeError; it is modelled as such. -/
def has_files (cfg : MillerConfig) (item : Folder) (elements : List String)
    (recursive : Option Bool) : Except PyErr (Option Bool) := do
  let v ← has_paths cfg item elements recursive
  if !truthy v then .ok v
  else (Except.error PyErr.typeError : Except PyErr (Option Bool))

/-- disks.has_folders (src/src/miller/disks.py:74): same shape as
has_files. -/
def has_folders (cfg : MillerConfig) (item : Folder) (elements : List String)
    (recursive : Option Bool) : Except PyErr (Option Bool) := do
  let v ← has_paths cfg item elements recursive
  if !truthy v then .ok v
  else (Except.error PyErr.typeError : Except PyErr (Option Bool))

/-- disks.has_modules (src/src/miller/disks.py:95): same shape as
has_files. -/
def has_modules (cfg : MillerConfig) (item : Folder) (elements : List String)
    (recursive : Option Bool) : Except PyErr (Option Bool) := do
  let v ← has_paths cfg item elements recursive
  if !truthy v then .ok v
  else (Except.error PyErr.typeError : Except PyErr (Option Bool))

/-- A class with an empty `__dict__`. -/
def emptyC : PyClass := ⟨"C", []⟩

/-- An instance of `emptyC` with no instance attributes. -/
def T0 : PyTarget := .inst ⟨emptyC, []⟩

/-- A class declaring a single property `p`. -/
def propC : PyClass := ⟨"D", [("p", Att.prop)]⟩

/-- An instance of `propC`. -/
def T1 : PyTarget := .inst ⟨propC, []⟩

/-- The shape of the test suite's TestClass: a class-level constant, a
property and an instance method declared on the class. -/
def testC : PyClass :=
  ⟨"TestClass",
    [("a_classvar", Att.plain), ("list_something", Att.prop),
     ("do_something", Att.func)]⟩

/-- `TestClass()` after `__init__` stored the instance attribute
`a_dict`. -/
def anInstance : PyTarget := .inst ⟨testC, ["a_dict"]⟩

/-- `all` over checker results: if every checker call returns a plain
boolean, the loop returns the conjunction of those booleans. -/
theorem pyAll_ok (check : String → Except PyErr (Option Bool))
    (f : String → Bool) (L : List String)
    (h : ∀ a ∈ L, check a = .ok (some (f a))) :
    pyAll check L = .ok (L.all f) := by
  induction L with
  | nil => rfl
  | cons a rest ih =>
    have ha := h a (by simp)
    have hrest : ∀ b ∈ rest, check b = .ok (some (f b)) :=
      fun b hb => h b (by simp [hb])
    by_cases hf : f a <;>
      simp [pyAll, ha, truthy, hf, ih hrest, bind, Except.bind]

/-- `any` over checker results: the disjunction of the booleans. -/
theorem pyAny_ok (check : String → Except PyErr (Option Bool))
    (f : String → Bool) (L : List String)
    (h : ∀ a ∈ L, check a = .ok (some (f a))) :
    pyAny check L = .ok (L.any f) := by
  induction L with
  | nil => rfl
  | cons a rest ih =>
    have ha := h a (by simp)
    have hrest : ∀ b ∈ rest, check b = .ok (some (f b)) :=
      fun b hb => h b (by simp [hb])
    by_cases hf : f a <;>
      simp [pyAny, ha, truthy, hf, ih hrest, bind, Except.bind]

/-- has_elements under an explicit non-raising, match-all policy computes
the conjunction of the per-name checks. -/
theorem has_elements_all (cfg : MillerConfig)
    (checker : PyTarget → String → Option Bool → Except PyErr (Option Bool))
    (T : PyTarget) (L : List String) (f : String → Bool)
    (h : ∀ a ∈ L, checker T a (some false) = .ok (some (f a))) :
    has_elements cfg checker (some false) (some true) T L =
      .ok (some (L.all f)) := by
  have hall := pyAll_ok (fun a => checker T a (some false)) f L h
  by_cases hf : L.all f <;>
    simp [has_elements, ifNoneCond, truthy, hall, hf, report_has, DEFAULT_HAS,
      bind, Except.bind]

/-- has_elements under an explicit non-raising, match-any policy computes
the disjunction of the per-name checks. -/
theorem has_elements_any (cfg : MillerConfig)
    (checker : PyTarget → String → Option Bool → Except PyErr (Option Bool))
    (T : PyTarget) (L : List String) (f : String → Bool)
    (h : ∀ a ∈ L, checker T a (some false) = .ok (some (f a))) :
    has_elements cfg checker (some false) (some false) T L =
      .ok (some (L.any f)) := by
  have hany := pyAny_ok (fun a => checker T a (some false)) f L h
  by_cases hf : L.any f <;>
    simp [has_elements, ifNoneCond, truthy, hany, hf, report_has, DEFAULT_HAS,
      bind, Except.bind]

/-- C1: the spec states that a `None` override for `raise_error`/`match_all`
in the predicates routed through base.has_elements / base.is_kind means "use
the global configuration value at call time".  The code contradicts this (and
its own docstrings): the resolution lines read `configuration.RAISE_ERRORS if
None else raise_error`, whose condition is the constant `None`, so the
global is never consulted.  With the import-time globals (RAISE_ERRORS =
True, MATCH_ALL = True): a failing has_properties call with `raise_error =
None` returns False instead of raising; the rewritten is_attribute of the
second tree does the same; and a has_properties call with `match_all = None`
uses ANY semantics (one matching property out of two suffices) although the
global demands ALL. -/
theorem c1_none_override_ignores_globals :
    importConfig.RAISE_ERRORS = true ∧
    has_properties importConfig T0 ["nonexistent"] none none =
      .ok (some false) ∧
    is_attribute2 importConfig T0 "nonexistent" none = .ok (some false) ∧
    importConfig.MATCH_ALL = true ∧
    has_properties importConfig T1 ["p", "q"] (some false) none =
      .ok (some true) :=
  ⟨rfl, rfl, rfl, rfl, rfl⟩

/-- C2: the spec states `is_attribute(T, "nonexistent", raise_error=True)`
raises the member-not-found kind (an AttributeError) and with
`raise_error=False` returns False.  The code disagrees: the primary
is_attribute hands the attribute NAME to `isinstance` as its class argument,
so every call — raising policy or not — dies with TypeError; the second
tree's is_attribute does return False when not raising, but under the
raising policy it raises TypeError (`{item} is not {kind} type`) from
report_is, not an AttributeError. -/
theorem c2_is_attribute_error_kind :
    pyHasattr T0 "nonexistent" = false ∧
    is_attribute importConfig T0 "nonexistent" (some true) =
      .error .typeError ∧
    is_attribute importConfig T0 "nonexistent" (some false) =
      .error .typeError ∧
    is_attribute2 importConfig T0 "nonexistent" (some true) =
      .error .typeError ∧
    is_attribute2 importConfig T0 "nonexistent" (some false) =
      .ok (some false) :=
  ⟨rfl, rfl, rfl, rfl, rfl⟩

/-- C3: under an explicitly non-raising policy, whenever the per-name checks
themselves return booleans, `has_X(T, L, match_all=True, raise_error=False)`
is the conjunction of `is_X(T, n, raise_error=False)` over `n ∈ L` and
`match_all=False` gives the disjunction, for the has_attributes/is_attribute,
has_methods/is_method and has_properties/is_property pairs; in particular the
empty list yields True under AND and False under OR. -/
theorem c3_has_all_any (cfg : MillerConfig) (T : PyTarget)
    (L1 L2 L3 : List String) (f1 f2 f3 : String → Bool)
    (h1 : ∀ a ∈ L1, is_attribute cfg T a (some false) = .ok (some (f1 a)))
    (h2 : ∀ a ∈ L2, is_method cfg T a (some false) = .ok (some (f2 a)))
    (h3 : ∀ a ∈ L3, is_property cfg T a (some false) = .ok (some (f3 a))) :
    has_attributes cfg T L1 (some false) (some true) =
      .ok (some (L1.all f1)) ∧
    has_attributes cfg T L1 (some false) (some false) =
      .ok (some (L1.any f1)) ∧
    has_methods cfg T L2 (some false) (some true) = .ok (some (L2.all f2)) ∧
    has_methods cfg T L2 (some false) (some false) = .ok (some (L2.any f2)) ∧
    has_properties cfg T L3 (some false) (some true) =
      .ok (some (L3.all f3)) ∧
    has_properties cfg T L3 (some false) (some false) =
      .ok (some (L3.any f3)) ∧
    has_attributes cfg T [] (some false) (some true) = .ok (some true) ∧
    has_attributes cfg T [] (some false) (some false) = .ok (some false) := by
  refine ⟨?_, ?_, ?_, ?_, ?_, ?_, ?_, ?_⟩
  · exact has_elements_all cfg (is_attribute cfg) T L1 f1 h1
  · exact has_elements_any cfg (is_attribute cfg) T L1 f1 h1
  · exact has_elements_all cfg (is_method cfg) T L2 f2 h2
  · exact has_elements_any cfg (is_method cfg) T L2 f2 h2
  · exact has_elements_all cfg (is_property cfg) T L3 f3 h3
  · exact has_elements_any cfg (is_property cfg) T L3 f3 h3
  · exact has_elements_all cfg (is_attribute cfg) T [] (fun _ => true)
      (by intro a ha; cases ha)
  · exact has_elements_any cfg (is_attribute cfg) T [] (fun _ => true)
      (by intro a ha; cases ha)

/-- Witness for C3 at a concrete target: the instance of a class with a
single property `p`, with empty name lists for the attribute/method pairs
(whose per-name checkers always raise in this code base) and `["p"]` for the
property pair. -/
theorem c3_has_all_any_witness :
    has_attributes importConfig T1 [] (some false) (some true) =
      .ok (some (([] : List String).all (fun _ => true))) ∧
    has_attributes importConfig T1 [] (some false) (some false) =
      .ok (some (([] : List String).any (fun _ => true))) ∧
    has_methods importConfig T1 [] (some false) (some true) =
      .ok (some (([] : List String).all (fun _ => true))) ∧
    has_methods importConfig T1 [] (some false) (some false) =
      .ok (some (([] : List String).any (fun _ => true))) ∧
    has_properties importConfig T1 ["p"] (some false) (some true) =
      .ok (some (["p"].all (fun _ => true))) ∧
    has_properties importConfig T1 ["p"] (some false) (some false) =
      .ok (some (["p"].any (fun _ => true))) ∧
    has_attributes importConfig T1 [] (some false) (some true) =
      .ok (some true) ∧
    has_attributes importConfig T1 [] (some false) (some false) =
      .ok (some false) :=
  c3_has_all_any importConfig T1 [] [] ["p"]
    (fun _ => true) (fun _ => true) (fun _ => true)
    (by intro a ha; cases ha)
    (by intro a ha; cases ha)
    (by intro a ha; simp at ha; subst ha; rfl)

/-- C4: the result reporters in result.py.  Under a non-raising resolved
policy a falsy computed value degrades to the configured empty default —
exactly False for the boolean reporters (report_has, report_is), `[]` for
the list/name reporters and `{}` for the mapping reporter — and no reporter
branch ever returns `None` (the `.ok none` value of the embedding). -/
theorem c4_reporter_defaults {α : Type} (raise_error match_all : Option Bool)
    (item : PyTarget) (elements : List String) (kind : Option String)
    (h : truthy raise_error = false) :
    report_has false raise_error match_all item elements = .ok (some false) ∧
    report_is none raise_error item kind = .ok (some false) ∧
    report_is (some false) raise_error item kind = .ok (some false) ∧
    report_list ([] : List α) raise_error match_all = .ok (some []) ∧
    report_map ([] : List (String × α)) raise_error match_all =
      .ok (some []) ∧
    report_name [] raise_error match_all = .ok (some []) ∧
    (∀ (v : Bool) (re ma : Option Bool) (i : PyTarget) (e : List String),
      report_has v re ma i e ≠ .ok none) ∧
    (∀ (v re : Option Bool) (i : PyTarget) (k : Option String),
      report_is v re i k ≠ .ok none) ∧
    (∀ (v : List α) (re ma : Option Bool), report_list v re ma ≠ .ok none) ∧
    (∀ (v : List (String × α)) (re ma : Option Bool),
      report_map v re ma ≠ .ok none) ∧
    (∀ (v : List String) (re ma : Option Bool),
      report_name v re ma ≠ .ok none) := by
  refine ⟨?_, ?_, ?_, ?_, ?_, ?_, ?_, ?_, ?_, ?_, ?_⟩
  · simp [report_has, h, DEFAULT_HAS]
  · cases raise_error with
    | none => simp [report_is, truthy, DEFAULT_IS]
    | some b =>
      simp [truthy] at h
      subst h
      simp [report_is, truthy, DEFAULT_IS]
  · cases raise_error with
    | none => simp [report_is, truthy, DEFAULT_IS]
    | some b =>
      simp [truthy] at h
      subst h
      simp [report_is, truthy, DEFAULT_IS]
  · simp [report_list, h, DEFAULT_LIST]
  · simp [report_map, h, DEFAULT_MAP]
  · simp [report_name, h, DEFAULT_NAME]
  · intro v re ma i e
    unfold report_has
    split_ifs <;> simp
  · intro v re i k
    unfold report_is
    split_ifs with h1 h2 h3 <;> simp [truthy] at *
    cases v with
    | none => simp [truthy] at h3
    | some b => simp
  · intro v re ma
    unfold report_list
    split_ifs <;> simp
  · intro v re ma
    unfold report_map
    split_ifs <;> simp
  · intro v re ma
    unfold report_name
    split_ifs <;> simp

/-- Witness for C4 at `raise_error = None` (falsy), `match_all = True`,
`α = Nat`. -/
theorem c4_reporter_defaults_witness :
    truthy none = false ∧
    (report_has false none (some true) T0 ["x"] = .ok (some false) ∧
    report_is none none T0 (some "x") = .ok (some false) ∧
    report_is (some false) none T0 (some "x") = .ok (some false) ∧
    report_list ([] : List Nat) none (some true) = .ok (some []) ∧
    report_map ([] : List (String × Nat)) none (some true) = .ok (some []) ∧
    report_name [] none (some true) = .ok (some []) ∧
    (∀ (v : Bool) (re ma : Option Bool) (i : PyTarget) (e : List String),
      report_has v re ma i e ≠ .ok none) ∧
    (∀ (v re : Option Bool) (i : PyTarget) (k : Option String),
      report_is v re i k ≠ .ok none) ∧
    (∀ (v : List Nat) (re ma : Option Bool), report_list v re ma ≠ .ok none) ∧
    (∀ (v : List (String × Nat)) (re ma : Option Bool),
      report_map v re ma ≠ .ok none) ∧
    (∀ (v : List String) (re ma : Option Bool),
      report_name v re ma ≠ .ok none)) :=
  ⟨rfl, c4_reporter_defaults none (some true) T0 ["x"] (some "x") rfl⟩

/-- C5: the spec's invariant says that for a resolvable member of an
instance exactly one of is_class_variable / is_instance_variable /
is_instance_method / is_class_method / is_property returns True.  The code
cannot satisfy it: every one of those classifiers except is_property funnels
through attributes.is_method, which calls base.is_kind without its required
`kind` argument and therefore raises TypeError instead of returning.  On the
test suite's own TestClass instance: the instance variable `a_dict`, the
method `do_something` — all classified by an exception, only the property
check returns. -/
theorem c5_classifiers_raise_instead_of_classifying :
    pyHasattr anInstance "a_dict" = true ∧
    pyHasattr anInstance "do_something" = true ∧
    is_instance_variable importConfig anInstance "a_dict" none =
      .error .typeError ∧
    is_instance_method importConfig anInstance "do_something" none =
      .error .typeError ∧
    is_class_variable importConfig anInstance "do_something" none =
      .error .typeError ∧
    is_class_method importConfig anInstance "do_something" none =
      .error .typeError ∧
    is_property importConfig anInstance "list_something" none =
      .ok (some true) :=
  ⟨rfl, rfl, rfl, rfl, rfl, rfl, rfl⟩

/-- A module `m` whose only top-level member is a class `C` defined in `m`
itself. -/
def modWithClass : PyModule := ⟨"m", [("C", ⟨some "m", true, false⟩)]⟩

/-- A module with a private member, a function defined locally, and a class
imported from another module. -/
def modMixed : PyModule :=
  ⟨"m",
    [("_hidden", ⟨some "m", false, false⟩),
     ("f", ⟨some "m", false, true⟩),
     ("Imported", ⟨some "other", true, false⟩)]⟩

/-- C6 counterexample: the claim says name_objects / map_objects exclude
classes and functions (the complement of the classes/functions
enumerations).  But map_objects runs _get_object_mapping with predicate
`None`, which filters only on `__module__`: on a module whose sole member is
a locally defined class, that class appears in both enumerations. -/
theorem c6_objects_include_classes_counterexample :
    (⟨some "m", true, false⟩ : Member).misClass = true ∧
    map_objects modWithClass false = .ok [("C", ⟨some "m", true, false⟩)] ∧
    name_objects modWithClass false = .ok ["C"] ∧
    name_classes modWithClass false = .ok ["C"] :=
  ⟨rfl, rfl, rfl, rfl⟩

/-- When every member carries a `__module__`, the comprehension filter
succeeds and keeps exactly the members recorded as owned by `nm`. -/
theorem filterByModule_ok (pairs : List (String × Member)) (nm : String)
    (h : ∀ p ∈ pairs, (p.2.mmodule).isSome) :
    filterByModule pairs nm =
      .ok (pairs.filter (fun q => q.2.mmodule == some nm)) := by
  induction pairs with
  | nil => rfl
  | cons m rest ih =>
    have hm := h m (by simp)
    have hrest : ∀ p ∈ rest, (p.2.mmodule).isSome :=
      fun p hp => h p (by simp [hp])
    cases hmm : m.2.mmodule with
    | none => rw [hmm] at hm; simp at hm
    | some s =>
      by_cases hs : s = nm <;>
        simp [filterByModule, hmm, ih hrest, hs, List.filter_cons,
          bind, Except.bind]

/-- C6 amended: for every module all of whose top-level members record an
owning `__module__`, map_objects/name_objects enumerate exactly the members
whose recorded owning-module equals the module's own name and whose name is
not private (unless include_private) — with NO exclusion of classes or
functions; members imported from another module are excluded. -/
theorem c6_objects_are_module_filtered (M : PyModule) (include_private : Bool)
    (h : ∀ p ∈ M.members, (p.2.mmodule).isSome) :
    ∃ L, map_objects M include_private = .ok L ∧
      name_objects M include_private = .ok (L.map Prod.fst) ∧
      ∀ q, q ∈ L ↔ q ∈ M.members ∧ q.2.mmodule = some M.modName ∧
        (include_private = true ∨ isPrivateName q.1 = false) := by
  have hfilter := filterByModule_ok M.members M.modName h
  have hmap : map_objects M include_private =
      .ok (if include_private then
        M.members.filter (fun q => q.2.mmodule == some M.modName)
      else drop_privates
        (M.members.filter (fun q => q.2.mmodule == some M.modName))) := by
    simp [map_objects, _get_object_mapping, hfilter, bind, Except.bind]
  refine ⟨_, hmap, ?_, ?_⟩
  · simp [name_objects, hmap, bind, Except.bind]
  · intro q
    cases include_private with
    | true => simp [List.mem_filter]
    | false =>
      simp [drop_privates, List.mem_filter]
      tauto

/-- Witness for C6 on the mixed module: the local function is kept, the
private member dropped, the imported class excluded. -/
theorem c6_objects_are_module_filtered_witness :
    (∀ p ∈ modMixed.members, (p.2.mmodule).isSome) ∧
    (∃ L, map_objects modMixed false = .ok L ∧
      name_objects modMixed false = .ok (L.map Prod.fst) ∧
      ∀ q, q ∈ L ↔ q ∈ modMixed.members ∧
        q.2.mmodule = some modMixed.modName ∧
        (false = true ∨ isPrivateName q.1 = false)) :=
  ⟨by intro p hp; fin_cases hp <;> rfl,
   c6_objects_are_module_filtered modMixed false
     (by intro p hp; fin_cases hp <;> rfl)⟩

/-- C7: the spec says has_contents on a tuple with a same-length tuple of
expected types checks positionally.  The code selects has_contents_parallel
for that case, but its generator `all(isinstance(item[i], contents[i]) for i
in enumerate(item))` binds `i` to an (index, element) PAIR, so indexing with
it raises TypeError on every non-empty tuple — even on input that matches
positionally.  Serial checking of other containers works: here a
length-mismatched tuple and a homogeneous list check element-by-element
against the expected type. -/
theorem c7_parallel_check_raises :
    has_contents_tuple [PyType.intT] (ExpectedTypes.tup [PyType.intT]) =
      .error .typeError ∧
    has_contents_tuple [PyType.intT, PyType.strT]
      (ExpectedTypes.tup [PyType.intT]) = .ok false ∧
    has_contents_list [PyType.intT, PyType.intT]
      (ExpectedTypes.single PyType.intT) = .ok true ∧
    has_contents_tuple [] (ExpectedTypes.tup []) = .ok true :=
  ⟨rfl, rfl, rfl, rfl⟩

/-- C8: the spec's scenario `contained_types([1, "a", 1]) = (int, str)`.
list_types dispatches a list to list_types_list, whose body (copied from the
dict variant) calls `item.keys()` on the list and raises AttributeError for
every list; the sibling list_types_sequence implements the intended
first-seen de-duplication and does return (int, str) on the same
elements. -/
theorem c8_list_types_raises :
    list_types_list [PyType.intT, PyType.strT, PyType.intT] =
      .error .attributeError ∧
    list_types_sequence [PyType.intT, PyType.strT, PyType.intT] =
      .ok (some [PyType.intT, PyType.strT]) :=
  ⟨rfl, rfl⟩

/-- C9: has_paths always raises before returning — AttributeError from the
misspelled camina.pahlibify on a non-empty elements list, TypeError from
`all(<bool>)` on an empty one — and has_files / has_folders / has_modules
evaluate has_paths first in their `and`, so none of them ever returns a
boolean for any input. -/
theorem c9_has_paths_always_raises (cfg : MillerConfig) (item : Folder)
    (elements : List String) (recursive : Option Bool) :
    (∃ e, has_paths cfg item elements recursive = .error e) ∧
    (∃ e, has_files cfg item elements recursive = .error e) ∧
    (∃ e, has_folders cfg item elements recursive = .error e) ∧
    (∃ e, has_modules cfg item elements recursive = .error e) := by
  cases elements with
  | nil =>
    exact ⟨⟨.typeError, rfl⟩, ⟨.typeError, rfl⟩, ⟨.typeError, rfl⟩,
      ⟨.typeError, rfl⟩⟩
  | cons a rest =>
    exact ⟨⟨.attributeError, rfl⟩, ⟨.attributeError, rfl⟩,
      ⟨.attributeError, rfl⟩, ⟨.attributeError, rfl⟩⟩

/-- A `*`-headed pattern matches only when the tail pattern matches some
suffix. -/
theorem fnmatch_dot_star_mem (s : List Char)
    (h : fnmatch ['.', '*'] s = true) : '.' ∈ s := by
  cases s with
  | nil => simp [fnmatch] at h
  | cons c s2 =>
    simp [fnmatch] at h
    subst h
    simp

/-- Any name matched by the glob pattern `*.*` contains a dot. -/
theorem fnmatch_star_dot_star_mem (s : List Char)
    (h : fnmatch ['*', '.', '*'] s = true) : '.' ∈ s := by
  have hd : fnmatch ['*', '.', '*'] s =
      (s.tails).any (fun t => fnmatch ['.', '*'] t) := rfl
  rw [hd, List.any_eq_true] at h
  obtain ⟨t, ht, hmatch⟩ := h
  have hsub : t <:+ s := by
    simpa using (List.mem_tails t s).mp ht
  exact hsub.subset (fnmatch_dot_star_mem t hmatch)

/-- Entries surviving the default glob of list_paths contain a dot. -/
theorem mem_list_paths_star (cfg : MillerConfig) (item : Folder)
    (recursive : Option Bool) (p : Entry)
    (h : p ∈ list_paths cfg item recursive "*") : '.' ∈ p.ename.toList := by
  have hunfold : list_paths cfg item recursive "*" =
      (if (match recursive with | none => cfg.RECURSIVE | some b => b) then
        item.descendants.filter (fun q => fnmatchStr ("*." ++ "*") q.ename)
      else
        item.direct.filter (fun q => fnmatchStr ("*." ++ "*") q.ename)) := rfl
  rw [hunfold] at h
  split at h <;>
  · have hm := (List.mem_filter.mp h).2
    exact fnmatch_star_dot_star_mem _ hm

/-- C10: list_paths globs with the pattern `'*.' + suffix`; under the
default suffix `'*'` the effective pattern is `'*.*'`, so a directory entry
whose name contains no dot is never returned, and consequently list_folders
— which uses the default suffix — returns only folders whose names contain
a dot. -/
theorem c10_default_glob_requires_dot (cfg : MillerConfig) (item : Folder)
    (recursive : Option Bool) :
    (∀ p ∈ list_paths cfg item recursive "*", '.' ∈ p.ename.toList) ∧
    (∀ p ∈ list_folders cfg item recursive,
      is_folder p = true ∧ '.' ∈ p.ename.toList) := by
  constructor
  · intro p hp
    exact mem_list_paths_star cfg item recursive p hp
  · intro p hp
    unfold list_folders at hp
    have hfilter := List.mem_filter.mp hp
    exact ⟨hfilter.2,
      mem_list_paths_star cfg item _ p hfilter.1⟩

/-- A directory with a dotted folder, an extensionless folder and a python
file. -/
def sampleDir : Folder :=
  ⟨[⟨"pkg.data", PathKind.folder⟩, ⟨"plain", PathKind.folder⟩,
    ⟨"mod.py", PathKind.file⟩],
   [⟨"pkg.data", PathKind.folder⟩, ⟨"plain", PathKind.folder⟩,
    ⟨"mod.py", PathKind.file⟩]⟩

/-- Witness for C10 on a concrete directory: only the dotted folder
survives list_folders, and the conclusion of the theorem holds of it. -/
theorem c10_default_glob_requires_dot_witness :
    list_folders importConfig sampleDir none =
      [⟨"pkg.data", PathKind.folder⟩] ∧
    ((⟨"pkg.data", PathKind.folder⟩ : Entry) ∈
      list_folders importConfig sampleDir none) ∧
    (is_folder ⟨"pkg.data", PathKind.folder⟩ = true ∧
      '.' ∈ (⟨"pkg.data", PathKind.folder⟩ : Entry).ename.toList) :=
  ⟨rfl, by decide,
   (c10_default_glob_requires_dot importConfig sampleDir none).2
     ⟨"pkg.data", PathKind.folder⟩ (by decide)⟩
